import Mathlib

/-!
Shallow embedding of the Game Session Controller in src/chess/main.py.

The program is a single-file pygame chess GUI. Board state, move legality,
undo and serialization are delegated to the external python-chess library
(the spec's Rules Engine) and move search to a Stockfish subprocess (the
spec's Analysis Engine). Both are external collaborators whose code is not
in this repository, so they are modelled here as a parametric interface
`Engine`; the properties of that interface a theorem needs (push changes
the position, pop inverts push, FEN round-trips) are stated as explicit
hypotheses, discharged on a small concrete instance in each witness.

The controller logic itself - the body of `main`'s event loop, `ChessAI`,
`save_game` and `load_game` - is translated directly from the source.
Python behaviours that raise an uncaught exception (random.choice on an
empty list, board.push(None)) are modelled with `Option`/`AIResult`.
-/

namespace Chess

/-- BOARD_SIZE constant from main.py. -/
def BOARD_SIZE : Nat := 640

/-- SQUARE_SIZE = BOARD_SIZE // 8 from main.py. -/
def SQUARE_SIZE : Nat := BOARD_SIZE / 8

/-- TEXT_BOX_HEIGHT constant from main.py; the window is
BOARD_SIZE x (BOARD_SIZE + TEXT_BOX_HEIGHT). -/
def TEXT_BOX_HEIGHT : Nat := 50

/-- The status string display_info shows when a candidate move is rejected
(main.py line 139). -/
def invalidMoveMsg : String := "Invalid move. Try again."

/-- Interface of the external Rules Engine (a python-chess chess.Board).
`pieceAt` returns the colour of the occupant of a square (some true for a
white piece, some false for a black piece, none for an empty square);
python code only tests its truthiness. `turn` is the side to move
(true = White). `fen`/`fromFen` are board.fen() and chess.Board(fen). -/
structure Engine (Pos Move : Type) where
  mkMove : Nat → Nat → Move
  legalMoves : Pos → List Move
  push : Pos → Move → Pos
  pop : Pos → Pos
  moveStackLen : Pos → Nat
  pieceAt : Pos → Nat → Option Bool
  turn : Pos → Bool
  isCheckmate : Pos → Bool
  isStalemate : Pos → Bool
  isCheck : Pos → Bool
  isGameOver : Pos → Bool
  fen : Pos → String
  fromFen : String → Pos
  peek : Pos → Option Move
  uci : Move → String

/-- The mutable state of main()'s event loop: board, selected_square,
player_turn, last_move, show_hint, running, plus the last string handed to
display_info (the status message). -/
structure GameState (Pos Move : Type) where
  board : Pos
  selected_square : Option Nat
  player_turn : Bool
  last_move : Option String
  show_hint : Bool
  running : Bool
  message : Option String
deriving DecidableEq

variable {Pos Move : Type}

/-- The square index main.py computes from a mouse click:
col = x // SQUARE_SIZE; row = y // SQUARE_SIZE; square = row * 8 + col. -/
def clickSquare (x y : Nat) : Nat :=
  (y / SQUARE_SIZE) * 8 + (x / SQUARE_SIZE)

/-- The MOUSEBUTTONDOWN handler of main.py (the select-or-move logic):
only acts on the player's turn; a first click on an occupied square
records the selection; a second click builds chess.Move(selected, square),
pushes it if legal (recording last_move and handing the turn to the AI),
otherwise shows the invalid-move message; either way the selection is
cleared. -/
def handleClick (E : Engine Pos Move) [DecidableEq Move]
    (s : GameState Pos Move) (x y : Nat) : GameState Pos Move :=
  if s.player_turn then
    let square := clickSquare x y
    match s.selected_square with
    | none =>
        if (E.pieceAt s.board square).isSome then
          { s with selected_square := some square }
        else s
    | some sel =>
        let m := E.mkMove sel square
        if m ∈ E.legalMoves s.board then
          let b := E.push s.board m
          { s with board := b
                 , last_move := (E.peek b).map E.uci
                 , player_turn := false
                 , selected_square := none }
        else
          { s with message := some invalidMoveMsg
                 , selected_square := none }
  else s

/-- The K_u handler of main.py: if len(board.move_stack) > 0 then
board.pop(); nothing else in the state is touched. -/
def handleUndo (E : Engine Pos Move) (s : GameState Pos Move) :
    GameState Pos Move :=
  if 0 < E.moveStackLen s.board then
    { s with board := E.pop s.board }
  else s

/-- The ChessAI class: a difficulty level string plus the Stockfish query
self.engine.play(board, Limit(depth)).move, modelled as an abstract
function of position and depth. -/
structure ChessAI (Pos Move : Type) where
  level : String
  engine_play : Pos → Nat → Move

/-- ChessAI.random_move: random.choice(list(board.legal_moves)).
`k` is the randomness draw: random.choice picks a uniformly random index
into the list, modelled as k % length. random.choice raises IndexError on
an empty list; that uncaught exception is modelled as `none`. -/
def random_move (E : Engine Pos Move) (k : Nat) (p : Pos) : Option Move :=
  let legal := E.legalMoves p
  if h : 0 < legal.length then
    some (legal.get ⟨k % legal.length, Nat.mod_lt _ h⟩)
  else
    none

/-- Outcome of ChessAI.make_move: a returned Move, a fall-through that
returns Python None (no level branch matched), or a propagated IndexError
from random.choice on an empty legal-move list. -/
inductive AIResult (Move : Type) where
  | move : Move → AIResult Move
  | noneReturned : AIResult Move
  | indexError : AIResult Move
deriving DecidableEq

/-- ChessAI.make_move: dispatches on the level string; 'easy' is
random_move, 'medium' and 'hard' are Stockfish at depth 10 and 20; any
other level falls through and returns None. -/
def make_move (ai : ChessAI Pos Move) (E : Engine Pos Move) (k : Nat)
    (p : Pos) : AIResult Move :=
  if ai.level = "easy" then
    match random_move E k p with
    | some m => AIResult.move m
    | none => AIResult.indexError
  else if ai.level = "medium" then AIResult.move (ai.engine_play p 10)
  else if ai.level = "hard" then AIResult.move (ai.engine_play p 20)
  else AIResult.noneReturned

/-- The AI-move block of main.py's loop:
if not player_turn and not board.is_game_over(): push ai.make_move(board),
record last_move, set player_turn = True. The result of make_move is
passed to board.push with no None-check and no legality check; the two
crashing outcomes (push(None) raising, or a propagated IndexError) are
modelled as `none`. -/
def aiStep (E : Engine Pos Move) (ai : ChessAI Pos Move) (k : Nat)
    (s : GameState Pos Move) : Option (GameState Pos Move) :=
  if !s.player_turn && !E.isGameOver s.board then
    match make_move ai E k s.board with
    | AIResult.move m =>
        let b := E.push s.board m
        some { s with board := b
                    , last_move := (E.peek b).map E.uci
                    , player_turn := true }
    | AIResult.noneReturned => none
    | AIResult.indexError => none
  else
    some s

/-- save_game: writes board.fen() - and nothing else - as the whole
content of saved_game.txt. The returned string is the file content. -/
def save_game (E : Engine Pos Move) (p : Pos) : String := E.fen p

/-- load_game: reads the whole file content and builds chess.Board(fen)
from it. The argument is the file content. -/
def load_game (E : Engine Pos Move) (content : String) : Pos :=
  E.fromFen content

/-- The derived Game Status of spec section 3, computed exactly as
main.py's status chain does: checkmate, else stalemate, else check, else
ongoing. -/
inductive GStatus where
  | Ongoing : GStatus
  | Check : GStatus
  | Checkmate : GStatus
  | Stalemate : GStatus
deriving DecidableEq

/-- The status main.py derives each cycle from the Rules Engine
(is_checkmate / is_stalemate / is_check chain, lines 160-169). -/
def gameStatus (E : Engine Pos Move) (p : Pos) : GStatus :=
  if E.isCheckmate p then GStatus.Checkmate
  else if E.isStalemate p then GStatus.Stalemate
  else if E.isCheck p then GStatus.Check
  else GStatus.Ongoing

/-! Concrete toy instances of the Rules Engine interface, used by the
witnesses and counterexamples. A toy position is just its move stack; push
appends, pop drops the last move, so the python-chess push/pop contract
holds definitionally. -/

/-- A toy move: (from-square, to-square). -/
abbrev ToyMove : Type := Nat × Nat

/-- A toy position: the stack of moves applied so far. -/
abbrev ToyPos : Type := List ToyMove

/-- Builds a toy Rules Engine from the parts the toys vary in. -/
def mkToy (legal : ToyPos → List ToyMove) (pa : ToyPos → Nat → Option Bool)
    (trn : ToyPos → Bool) (chk mate stale over : ToyPos → Bool) :
    Engine ToyPos ToyMove where
  mkMove a b := (a, b)
  legalMoves := legal
  push p m := p ++ [m]
  pop p := p.dropLast
  moveStackLen p := p.length
  pieceAt := pa
  turn := trn
  isCheckmate := mate
  isStalemate := stale
  isCheck := chk
  isGameOver := over
  fen p := toString p.length
  fromFen _ := []
  peek p := p.getLast?
  uci _ := "uci"

/-- Toy engine with one legal move (12, 28) from every position. -/
def toyA : Engine ToyPos ToyMove :=
  mkToy (fun _ => [(12, 28)]) (fun _ _ => none) (fun _ => true)
    (fun _ => false) (fun _ => false) (fun _ => false) (fun _ => false)

/-- Toy engine: White to move, a black piece on square 28, no legal moves. -/
def toyB : Engine ToyPos ToyMove :=
  mkToy (fun _ => []) (fun _ sq => if sq = 28 then some false else none)
    (fun _ => true) (fun _ => false) (fun _ => false) (fun _ => false)
    (fun _ => false)

/-- Toy engine reporting White (the human's side) to move in every
position. -/
def toyC : Engine ToyPos ToyMove :=
  mkToy (fun _ => []) (fun _ _ => none) (fun _ => true)
    (fun _ => false) (fun _ => false) (fun _ => false) (fun _ => false)

/-- Toy engine: every position is check (but not game over) and has the
single legal move (1, 2). -/
def toyD : Engine ToyPos ToyMove :=
  mkToy (fun _ => [(1, 2)]) (fun _ _ => none) (fun _ => true)
    (fun _ => true) (fun _ => false) (fun _ => false) (fun _ => false)

/-- Toy engine: every position is checkmate, game over, no legal moves. -/
def toyE : Engine ToyPos ToyMove :=
  mkToy (fun _ => []) (fun _ _ => none) (fun _ => true)
    (fun _ => false) (fun _ => true) (fun _ => false) (fun _ => true)

/-- Human's turn with square 12 already selected, fresh board. -/
def stA : GameState ToyPos ToyMove :=
  { board := []
  , selected_square := some 12
  , player_turn := true
  , last_move := none
  , show_hint := false
  , running := true
  , message := none }

/-- Human's turn, nothing selected, fresh board. -/
def stB : GameState ToyPos ToyMove :=
  { board := []
  , selected_square := none
  , player_turn := true
  , last_move := none
  , show_hint := false
  , running := true
  , message := none }

/-- The AI's turn with one move already on the stack. -/
def stC : GameState ToyPos ToyMove :=
  { board := [(12, 28)]
  , selected_square := none
  , player_turn := false
  , last_move := none
  , show_hint := false
  , running := true
  , message := none }

/-- The AI's turn on a fresh board. -/
def stD : GameState ToyPos ToyMove :=
  { board := []
  , selected_square := none
  , player_turn := false
  , last_move := none
  , show_hint := false
  , running := true
  , message := none }

/-- An easy-level ChessAI over the toy engine types. -/
def aiD : ChessAI ToyPos ToyMove :=
  { level := "easy", engine_play := fun _ _ => (0, 0) }

/-- A ChessAI configured with a level outside easy/medium/hard. -/
def aiX : ChessAI ToyPos ToyMove :=
  { level := "expert", engine_play := fun _ _ => (0, 0) }

/-- Claim C1: on a second click with a selection present and the human to
move, the controller changes the Position if and only if the constructed
move is in the Rules Engine's legal-move set; when it is not, board, turn
state and running flag are unchanged and the invalid-move message is shown
(no abort); the selection is cleared in either case. The hypothesis hpush
is the Rules Engine law that applying a legal move changes the position. -/
theorem C1_attempt_move_iff {Pos Move : Type} [DecidableEq Move]
    (E : Engine Pos Move) (s : GameState Pos Move) (x y sel : Nat)
    (hturn : s.player_turn = true)
    (hsel : s.selected_square = some sel)
    (hpush : E.mkMove sel (clickSquare x y) ∈ E.legalMoves s.board →
      E.push s.board (E.mkMove sel (clickSquare x y)) ≠ s.board) :
    ((handleClick E s x y).board ≠ s.board ↔
      E.mkMove sel (clickSquare x y) ∈ E.legalMoves s.board)
    ∧ (E.mkMove sel (clickSquare x y) ∉ E.legalMoves s.board →
        (handleClick E s x y).board = s.board
        ∧ (handleClick E s x y).player_turn = s.player_turn
        ∧ (handleClick E s x y).message = some invalidMoveMsg
        ∧ (handleClick E s x y).running = s.running)
    ∧ (handleClick E s x y).selected_square = none := by
  by_cases hm : E.mkMove sel (clickSquare x y) ∈ E.legalMoves s.board
  · have h1 : handleClick E s x y =
        { s with board := E.push s.board (E.mkMove sel (clickSquare x y))
               , last_move :=
                   (E.peek (E.push s.board
                     (E.mkMove sel (clickSquare x y)))).map E.uci
               , player_turn := false
               , selected_square := none } := by
      simp [handleClick, hturn, hsel, hm]
    rw [h1]
    refine ⟨⟨fun _ => hm, fun _ => hpush hm⟩, fun hcon => absurd hm hcon, rfl⟩
  · have h1 : handleClick E s x y =
        { s with message := some invalidMoveMsg
               , selected_square := none } := by
      simp [handleClick, hturn, hsel, hm]
    rw [h1]
    exact ⟨by simp [hm], fun _ => ⟨rfl, rfl, rfl, rfl⟩, rfl⟩

/-- Witness for C1 on the toy engine: clicking (320, 240) with square 12
selected submits the legal move (12, 28), which changes the board and
clears the selection. -/
theorem C1_attempt_move_iff_witness :
    (handleClick toyA stA 320 240).board ≠ stA.board
    ∧ (handleClick toyA stA 320 240).selected_square = none :=
  ⟨(C1_attempt_move_iff toyA stA 320 240 12 rfl rfl (by decide)).1.mpr
      (by decide),
   (C1_attempt_move_iff toyA stA 320 240 12 rfl rfl (by decide)).2.2⟩

/-- Claim C2 as stated is false: the first-click test in main.py is
`board.piece_at(square)` with no colour check, so a click on a piece of
the side NOT to move does become the selection. Here White (the human) is
to move, square 28 holds a black piece, and clicking it records the
selection. -/
theorem C2_counterexample :
    toyB.turn stB.board = true
    ∧ toyB.pieceAt stB.board (clickSquare 320 240) = some false
    ∧ (handleClick toyB stB 320 240).selected_square =
        some (clickSquare 320 240) := by decide

/-- Claim C2 amended: with no selection and the human to move, the clicked
square becomes the selection exactly when it holds a piece of either
colour; only a click on an empty square never becomes the selection (and
then the whole state is unchanged). -/
theorem C2_select_any_piece {Pos Move : Type} [DecidableEq Move]
    (E : Engine Pos Move) (s : GameState Pos Move) (x y : Nat)
    (hturn : s.player_turn = true)
    (hsel : s.selected_square = none) :
    (handleClick E s x y).selected_square =
      (if (E.pieceAt s.board (clickSquare x y)).isSome
        then some (clickSquare x y) else none)
    ∧ (E.pieceAt s.board (clickSquare x y) = none →
        handleClick E s x y = s) := by
  constructor
  · by_cases hp : (E.pieceAt s.board (clickSquare x y)).isSome
    · simp [handleClick, hturn, hsel, hp]
    · simp [handleClick, hturn, hsel, hp]
  · intro hp
    simp [handleClick, hturn, hsel, hp]

/-- Witness for the amended C2: clicking the occupied square 28 with
nothing selected records it as the selection. -/
theorem C2_select_any_piece_witness :
    (handleClick toyB stB 320 240).selected_square =
      (if (toyB.pieceAt stB.board (clickSquare 320 240)).isSome
        then some (clickSquare 320 240) else none) :=
  (C2_select_any_piece toyB stB 320 240 rfl rfl).1

/-- Claim C3 as stated is false in its last part: the undo handler of
main.py only pops the board and never touches player_turn, so Turn State
is NOT set to the side the Rules Engine reports to move. Here the stack is
non-empty, after the pop the engine reports White (the human, who acts
when player_turn is true) to move, yet player_turn remains false. -/
theorem C3_counterexample :
    0 < toyC.moveStackLen stC.board
    ∧ toyC.turn ((handleUndo toyC stC).board) = true
    ∧ (handleUndo toyC stC).player_turn = false := by decide

/-- Claim C3 amended: undo with an empty stack is a no-op on the whole
state; with a non-empty stack it pops exactly one move (the most recent,
regardless of whose move it was) and leaves every other component -
including Turn State - unchanged. -/
theorem C3_undo_pops_one {Pos Move : Type}
    (E : Engine Pos Move) (s : GameState Pos Move) :
    (E.moveStackLen s.board = 0 → handleUndo E s = s)
    ∧ (0 < E.moveStackLen s.board →
        handleUndo E s = { s with board := E.pop s.board })
    ∧ (handleUndo E s).player_turn = s.player_turn
    ∧ (handleUndo E s).selected_square = s.selected_square := by
  by_cases h : 0 < E.moveStackLen s.board
  · refine ⟨fun h0 => absurd h (by omega), fun _ => ?_, ?_, ?_⟩ <;>
      simp [handleUndo, h]
  · refine ⟨fun _ => ?_, fun hc => absurd hc h, ?_, ?_⟩ <;>
      simp [handleUndo, h]

/-- Witness for the amended C3: undoing on a one-move stack pops that
move and changes nothing else. -/
theorem C3_undo_pops_one_witness :
    handleUndo toyC stC = { stC with board := toyC.pop stC.board } :=
  (C3_undo_pops_one toyC stC).2.1 (by decide)

/-- Claim C4 as stated is false: the AI-move guard in main.py is
`not board.is_game_over()`, not `Game Status = Ongoing`, so when the
derived status is Check (not Ongoing) the opponent step still applies a
move. Here the status is Check, the AI is to move, and the board
changes. -/
theorem C4_counterexample :
    gameStatus toyD stD.board = GStatus.Check
    ∧ stD.player_turn = false
    ∧ Option.map (fun s => s.board) (aiStep toyD aiD 0 stD) =
        some [(1, 2)]
    ∧ ¬ stD.board = [(1, 2)] := by decide

/-- Claim C4 amended: advance_opponent_turn is a no-op unless Turn State
is OpponentToMove and the Rules Engine reports the game not over (it acts
even when the status is Check); when the guard holds and the strategy
yields a move, that move is applied with no legality re-validation and
Turn State flips to HumanToMove. -/
theorem C4_ai_step {Pos Move : Type}
    (E : Engine Pos Move) (ai : ChessAI Pos Move) (k : Nat)
    (s : GameState Pos Move) :
    (¬ (s.player_turn = false ∧ E.isGameOver s.board = false) →
      aiStep E ai k s = some s)
    ∧ (∀ m, s.player_turn = false → E.isGameOver s.board = false →
        make_move ai E k s.board = AIResult.move m →
        aiStep E ai k s = some
          { s with board := E.push s.board m
                 , last_move := (E.peek (E.push s.board m)).map E.uci
                 , player_turn := true }) := by
  constructor
  · intro h
    have hg : ¬ ((!s.player_turn && !E.isGameOver s.board) = true) := by
      simp only [Bool.and_eq_true, Bool.not_eq_true']
      exact h
    simp [aiStep, hg]
  · intro m h1 h2 h3
    simp [aiStep, h1, h2, h3]

/-- Witness for the amended C4: on a check (not game-over) toy position
the AI step pushes the chosen move and hands the turn back to the
human. -/
theorem C4_ai_step_witness :
    aiStep toyD aiD 0 stD = some
      { stD with board := toyD.push stD.board (1, 2)
               , last_move :=
                   (toyD.peek (toyD.push stD.board (1, 2))).map toyD.uci
               , player_turn := true } :=
  (C4_ai_step toyD aiD 0 stD).2 (1, 2) rfl rfl (by decide)

/-- Claim C5: once the derived Game Status is Checkmate or Stalemate, no
click (selection or move attempt) and no opponent step changes the
Position. The hypotheses hlm and hgo are the Rules Engine laws that a
checkmate/stalemate position has an empty legal-move set and reports
game over. -/
theorem C5_terminal_frozen {Pos Move : Type} [DecidableEq Move]
    (E : Engine Pos Move) (s : GameState Pos Move) (x y k : Nat)
    (ai : ChessAI Pos Move)
    (_hterm : gameStatus E s.board = GStatus.Checkmate ∨
      gameStatus E s.board = GStatus.Stalemate)
    (hlm : E.legalMoves s.board = [])
    (hgo : E.isGameOver s.board = true) :
    (handleClick E s x y).board = s.board
    ∧ aiStep E ai k s = some s := by
  constructor
  · by_cases ht : s.player_turn = true
    · cases hs : s.selected_square with
      | none =>
          by_cases hp : (E.pieceAt s.board (clickSquare x y)).isSome <;>
            simp [handleClick, ht, hs, hp]
      | some sel =>
          simp [handleClick, ht, hs, hlm]
    · simp [handleClick, ht]
  · simp [aiStep, hgo]

/-- Witness for C5: on a checkmate toy position neither a click nor the
AI step changes the board. -/
theorem C5_terminal_frozen_witness :
    (handleClick toyE stB 320 240).board = stB.board
    ∧ aiStep toyE aiD 0 stB = some stB :=
  C5_terminal_frozen toyE stB 320 240 0 aiD (Or.inl (by decide))
    (by decide) (by decide)

/-- Claim C6: applying a legal move through the click handler and then
performing one undo returns the Position - and hence its serialized
record - to its pre-move value. The hypotheses hpop and hlen are the
Rules Engine laws that pop inverts push and that push leaves the move
stack non-empty (the python-chess contract, whose code is outside this
repository). -/
theorem C6_undo_left_inverse {Pos Move : Type} [DecidableEq Move]
    (E : Engine Pos Move) (s : GameState Pos Move) (x y sel : Nat)
    (hturn : s.player_turn = true)
    (hsel : s.selected_square = some sel)
    (hlegal : E.mkMove sel (clickSquare x y) ∈ E.legalMoves s.board)
    (hpop : E.pop (E.push s.board (E.mkMove sel (clickSquare x y))) =
      s.board)
    (hlen : 0 < E.moveStackLen
      (E.push s.board (E.mkMove sel (clickSquare x y)))) :
    (handleUndo E (handleClick E s x y)).board = s.board
    ∧ E.fen ((handleUndo E (handleClick E s x y)).board) =
        E.fen s.board := by
  have h1 : (handleClick E s x y).board =
      E.push s.board (E.mkMove sel (clickSquare x y)) := by
    simp [handleClick, hturn, hsel, hlegal]
  have hc : 0 < E.moveStackLen ((handleClick E s x y).board) := by
    rw [h1]; exact hlen
  have h2 : (handleUndo E (handleClick E s x y)).board = s.board := by
    unfold handleUndo
    rw [if_pos hc]
    show E.pop ((handleClick E s x y).board) = s.board
    rw [h1]
    exact hpop
  exact ⟨h2, by rw [h2]⟩

/-- Witness for C6 on the toy engine: push of (12, 28) followed by one
undo restores the empty starting stack. -/
theorem C6_undo_left_inverse_witness :
    (handleUndo toyA (handleClick toyA stA 320 240)).board = stA.board :=
  (C6_undo_left_inverse toyA stA 320 240 12 rfl rfl (by decide)
    (by decide) (by decide)).1

/-- Claim C7: save_game writes exactly the Rules Engine's record of the
position (board.fen(), no history, no metadata) as the whole file
content, and load_game parses exactly that content, so the round trip
reproduces a position with the same record. The hypothesis hrt is the
Rules Engine law that its own record encoding round-trips (the
python-chess contract, whose code is outside this repository). -/
theorem C7_save_load_roundtrip {Pos Move : Type}
    (E : Engine Pos Move) (p : Pos)
    (hrt : E.fen (E.fromFen (E.fen p)) = E.fen p) :
    save_game E p = E.fen p
    ∧ E.fen (load_game E (save_game E p)) = E.fen p :=
  ⟨rfl, hrt⟩

/-- Witness for C7 on the toy engine at the empty starting stack. -/
theorem C7_save_load_roundtrip_witness :
    save_game toyA ([] : ToyPos) = toyA.fen []
    ∧ toyA.fen (load_game toyA (save_game toyA ([] : ToyPos))) =
        toyA.fen [] :=
  C7_save_load_roundtrip toyA [] (by decide)

/-- Claim C8: at the easy level, random_move draws a uniformly random
element of the Rules Engine's legal-move list (k is the uniform random
index draw of random.choice), and on an empty list it produces no move
and make_move surfaces the fatal NoLegalMoves condition (the uncaught
IndexError of random.choice, modelled as AIResult.indexError) instead of
selecting or fabricating a move. -/
theorem C8_easy_uniform {Pos Move : Type}
    (E : Engine Pos Move) (ai : ChessAI Pos Move) (k : Nat) (p : Pos)
    (heasy : ai.level = "easy") :
    (E.legalMoves p = [] →
      random_move E k p = none
      ∧ make_move ai E k p = AIResult.indexError)
    ∧ (∀ h : k < (E.legalMoves p).length,
        random_move E k p = some ((E.legalMoves p).get ⟨k, h⟩)
        ∧ make_move ai E k p =
            AIResult.move ((E.legalMoves p).get ⟨k, h⟩))
    ∧ (∀ m, random_move E k p = some m → m ∈ E.legalMoves p) := by
  refine ⟨?_, ?_, ?_⟩
  · intro hlm
    have hr : random_move E k p = none := by
      simp [random_move, hlm]
    exact ⟨hr, by simp [make_move, heasy, hr]⟩
  · intro h
    have hpos : 0 < (E.legalMoves p).length :=
      Nat.lt_of_le_of_lt (Nat.zero_le k) h
    have hmod : k % (E.legalMoves p).length = k := Nat.mod_eq_of_lt h
    have hfin : (⟨k % (E.legalMoves p).length, Nat.mod_lt _ hpos⟩ :
        Fin (E.legalMoves p).length) = ⟨k, h⟩ := Fin.ext hmod
    have hr : random_move E k p = some ((E.legalMoves p).get ⟨k, h⟩) := by
      simp only [random_move]
      rw [dif_pos hpos, hfin]
    exact ⟨hr, by simp [make_move, heasy, hr]⟩
  · intro m hm
    by_cases hpos : 0 < (E.legalMoves p).length
    · simp only [random_move, dif_pos hpos, Option.some.injEq] at hm
      rw [← hm]
      exact List.get_mem _ _ _
    · simp [random_move, dif_neg hpos] at hm

/-- Witness for C8: on the toy engine with legal list [(1, 2)] and draw
k = 0, the easy AI returns exactly that move. -/
theorem C8_easy_uniform_witness :
    random_move toyD 0 ([] : ToyPos) = some ((1, 2) : ToyMove)
    ∧ make_move aiD toyD 0 ([] : ToyPos) =
        AIResult.move ((1, 2) : ToyMove) :=
  (C8_easy_uniform toyD aiD 0 [] rfl).2.1 (by decide)

/-- Claim C9 names a real bug: the controller computes
square = (y // SQUARE_SIZE) * 8 + (x // SQUARE_SIZE) for every click in
the window, and the window is BOARD_SIZE x (BOARD_SIZE + TEXT_BOX_HEIGHT)
pixels, so a click in the text-box strip (y in 640..689) yields a square
index of 64..71, outside the 0..63 range the Square constraint and the
Rules Engine require - e.g. the click (10, 645) yields square 64. -/
theorem C9_textbox_square_out_of_range :
    clickSquare 10 645 = 64
    ∧ ¬ (clickSquare 10 645 ≤ 63)
    ∧ 10 < BOARD_SIZE
    ∧ 645 < BOARD_SIZE + TEXT_BOX_HEIGHT := by decide

/-- Claim C10: for a difficulty level outside easy/medium/hard,
ChessAI.make_move falls through every branch and returns Python None
(AIResult.noneReturned), and the AI-move block passes that result to
board.push with no guard, so the opponent step crashes (modelled as
none) instead of completing. -/
theorem C10_unknown_level {Pos Move : Type}
    (E : Engine Pos Move) (ai : ChessAI Pos Move) (k : Nat)
    (s : GameState Pos Move)
    (h1 : ai.level ≠ "easy") (h2 : ai.level ≠ "medium")
    (h3 : ai.level ≠ "hard")
    (hpt : s.player_turn = false)
    (hgo : E.isGameOver s.board = false) :
    make_move ai E k s.board = AIResult.noneReturned
    ∧ aiStep E ai k s = none := by
  have hm : make_move ai E k s.board = AIResult.noneReturned := by
    simp [make_move, h1, h2, h3]
  exact ⟨hm, by simp [aiStep, hpt, hgo, hm]⟩

/-- Witness for C10: an AI configured at level 'expert' returns None and
the opponent step crashes on the toy engine. -/
theorem C10_unknown_level_witness :
    make_move aiX toyA 0 stD.board = AIResult.noneReturned
    ∧ aiStep toyA aiX 0 stD = none :=
  C10_unknown_level toyA aiX 0 stD (by decide) (by decide) (by decide)
    rfl rfl

end Chess
